import Mathlib

set_option maxRecDepth 100000

/-!
Verification of the telecom billing reconciliation dashboard
(`streamlit_app.py`): synthetic data generator, carrier/month filter
stage, and the grouped aggregations feeding the charts.

The pseudo-random stream is modelled abstractly: a `RandRec σ` packages
the three numpy draw operations used by the source (`np.random.uniform`,
`np.random.rand`, `np.random.choice`) as explicit state-passing
functions on an abstract generator state `σ`.  The generator threads the
state exactly in the draw order of the source, so every theorem quantified
over `RandRec` holds for every fixed seed.
-/

/-- One billing record, as built by `generate_sample_data`
(streamlit_app.py lines 28-36).  `isDisputed` is the generation-time
flag `is_disputed` (line 21) that determines the dependent fields; the
amounts are modelled as rationals. -/
structure BillingRecord where
  carrierName : String
  invoiceAmountUSD : ℚ
  disputedAmountUSD : ℚ
  isDisputed : Bool
  reconciliationStatus : String
  disputeType : Option String
  settlementStatus : String
  invoiceMonth : String
deriving Repr, DecidableEq

/-- Abstract pseudo-random stream with explicit state, covering the three
numpy primitives the source draws from. -/
structure RandRec (σ : Type) where
  uniform : ℚ → ℚ → σ → ℚ × σ
  rand : σ → ℚ × σ
  choice : List String → σ → String × σ

/-- Months `"2024-01"`..`"2024-12"`, the result of
`pd.date_range` over 12 month-end dates from 2024-01-31, formatted as year-month
(line 11). -/
def months : List String :=
  ["2024-01", "2024-02", "2024-03", "2024-04", "2024-05", "2024-06",
   "2024-07", "2024-08", "2024-09", "2024-10", "2024-11", "2024-12"]

/-- Carrier labels `"Carrier 1"`..`"Carrier 10"` (line 12). -/
def carriers : List String :=
  (List.range 10).map (fun i => "Carrier " ++ toString (i + 1))

/-- One loop body iteration of `generate_sample_data` (lines 19-36):
draw the invoice amount, the dispute flag, the conditional disputed
amount, then the three categorical fields, in the draw order of the source
(conditional draws are skipped when undisputed, as in the Python
conditional expressions). -/
def genRecord {σ : Type} (g : RandRec σ) (carrier month : String) (s : σ) :
    BillingRecord × σ :=
  let u1 := g.uniform 1000 5000 s
  let invoice := u1.1
  let r1 := g.rand u1.2
  let d : Bool := decide (r1.1 < (1 : ℚ) / 5)
  let u2 := if d then g.uniform 0 (invoice * (3 / 10)) r1.2 else ((0 : ℚ), r1.2)
  let c1 := g.choice ["Pending", "Completed", "In Progress"] u2.2
  let c2 := if d then
      (let t := g.choice ["Rate Dispute", "Volume Dispute"] c1.2
       ((some t.1 : Option String), t.2))
    else ((none : Option String), c1.2)
  let c3 := if d then g.choice ["Settled", "Unsettled"] c2.2 else ("Settled", c2.2)
  ({ carrierName := carrier
     invoiceAmountUSD := invoice
     disputedAmountUSD := u2.1
     isDisputed := d
     reconciliationStatus := c1.1
     disputeType := c2.1
     settlementStatus := c3.1
     invoiceMonth := month }, c3.2)

/-- Inner loop of the generator: one record per carrier for a fixed
month (line 18). -/
def genCarriers {σ : Type} (g : RandRec σ) (month : String) :
    List String → σ → List BillingRecord × σ
  | [], s => ([], s)
  | c :: cs, s =>
    let p := genRecord g c month s
    let q := genCarriers g month cs p.2
    (p.1 :: q.1, q.2)

/-- Outer loop of the generator: iterate the twelve months (line 17). -/
def genMonths {σ : Type} (g : RandRec σ) :
    List String → σ → List BillingRecord × σ
  | [], s => ([], s)
  | m :: ms, s =>
    let p := genCarriers g m carriers s
    let q := genMonths g ms p.2
    (p.1 ++ q.1, q.2)

/-- `generate_sample_data` (lines 7-38): the full 12-month × 10-carrier
sweep from the initial generator state (the seeded stream of line 8). -/
def generate_sample_data {σ : Type} (g : RandRec σ) (s0 : σ) :
    List BillingRecord :=
  (genMonths g months s0).1

/-- The filter stage (lines 53-59): start from a copy of the base data,
then apply the carrier predicate and the month predicate in sequence,
each skipped when its selector is the sentinel `"All"`. -/
def applyFilters (records : List BillingRecord)
    (carrierSel monthSel : String) : List BillingRecord :=
  let r1 := if carrierSel = "All" then records
            else records.filter (fun r => decide (r.carrierName = carrierSel))
  if monthSel = "All" then r1
  else r1.filter (fun r => decide (r.invoiceMonth = monthSel))

/-- Distinct values in first-appearance order, as pandas `Series.unique`
returns them (used for the carrier-coverage count of line 65). -/
def uniques {α : Type} [DecidableEq α] : List α → List α
  | [] => []
  | x :: xs => x :: uniques (xs.filter (fun y => decide (y ≠ x)))
termination_by l => l.length
decreasing_by
  simp_wf
  exact Nat.lt_succ_of_le (List.length_filter_le _ _)

/-- Group-by on a key with a single summed column, one row per distinct
key in first-appearance order (the `groupby(...).agg(sum)` pattern of
the source). -/
def groupSumBy {κ : Type} [DecidableEq κ] (key : BillingRecord → κ)
    (val : BillingRecord → ℚ) (rs : List BillingRecord) : List (κ × ℚ) :=
  (uniques (rs.map key)).map (fun k =>
    (k, ((rs.filter (fun r => decide (key r = k))).map val).sum))

/-- Group-by on a key with two summed columns (invoice and disputed
amounts summed together, as in lines 91-94 and 110-113). -/
def groupSum2By {κ : Type} [DecidableEq κ] (key : BillingRecord → κ)
    (v w : BillingRecord → ℚ) (rs : List BillingRecord) :
    List (κ × ℚ × ℚ) :=
  (uniques (rs.map key)).map (fun k =>
    (k, ((rs.filter (fun r => decide (key r = k))).map v).sum,
        ((rs.filter (fun r => decide (key r = k))).map w).sum))

/-- Group-by on a key counting rows per group, the
`groupby(...).size()` pattern (lines 125 and 168). -/
def groupCountBy {κ : Type} [DecidableEq κ] (key : BillingRecord → κ)
    (rs : List BillingRecord) : List (κ × ℕ) :=
  (uniques (rs.map key)).map (fun k =>
    (k, (rs.filter (fun r => decide (key r = k))).length))

/-- Modelled from the spec: aggregation 1 (carrier totals — group by
carrierName, sum invoiceAmountUSD and disputedAmountUSD).  The source
has no explicit group-by here: the chart at lines 80-84 passes the
filtered rows straight to the charting library, so the per-carrier
summation lives outside repository code. -/
def processed_vs_disputed (rs : List BillingRecord) :
    List (String × ℚ × ℚ) :=
  groupSum2By (fun r => r.carrierName)
    (fun r => r.invoiceAmountUSD) (fun r => r.disputedAmountUSD) rs

/-- Aggregation 2 (lines 91-94): group by invoiceMonth, sum both amount
columns. -/
def monthly_disputes (rs : List BillingRecord) : List (String × ℚ × ℚ) :=
  groupSum2By (fun r => r.invoiceMonth)
    (fun r => r.invoiceAmountUSD) (fun r => r.disputedAmountUSD) rs

/-- Aggregation 3 (lines 109-113): restrict to Pending reconciliation,
then group by carrierName and sum both amount columns. -/
def pending_reconciliation_summary (rs : List BillingRecord) :
    List (String × ℚ × ℚ) :=
  groupSum2By (fun r => r.carrierName)
    (fun r => r.invoiceAmountUSD) (fun r => r.disputedAmountUSD)
    (rs.filter (fun r => decide (r.reconciliationStatus = "Pending")))

/-- Aggregation 4 (line 125): group by (invoiceMonth,
reconciliationStatus), count rows. -/
def reconciliation_trend (rs : List BillingRecord) :
    List ((String × String) × ℕ) :=
  groupCountBy (fun r => (r.invoiceMonth, r.reconciliationStatus)) rs

/-- Aggregation 5 (lines 138-140): group by (carrierName, disputeType)
summing disputedAmountUSD; pandas drops rows whose group key is null,
so records with no dispute type are excluded before grouping. -/
def dispute_type (rs : List BillingRecord) :
    List ((String × String) × ℚ) :=
  groupSumBy (fun r => (r.carrierName, r.disputeType.getD ""))
    (fun r => r.disputedAmountUSD)
    (rs.filter (fun r => decide (r.disputeType ≠ none)))

/-- Aggregation 6 (lines 151-153): group by (carrierName,
settlementStatus), sum disputedAmountUSD. -/
def dispute_status (rs : List BillingRecord) :
    List ((String × String) × ℚ) :=
  groupSumBy (fun r => (r.carrierName, r.settlementStatus))
    (fun r => r.disputedAmountUSD) rs

/-- Aggregation 7 (line 168): group by (carrierName, settlementStatus),
count rows. -/
def settlement_status (rs : List BillingRecord) :
    List ((String × String) × ℕ) :=
  groupCountBy (fun r => (r.carrierName, r.settlementStatus)) rs

/-- Aggregation 8 (lines 180-182): group by (carrierName,
settlementStatus), sum invoiceAmountUSD. -/
def settled_vs_outstanding (rs : List BillingRecord) :
    List ((String × String) × ℚ) :=
  groupSumBy (fun r => (r.carrierName, r.settlementStatus))
    (fun r => r.invoiceAmountUSD) rs

/-- All eight chart inputs plus the optional carrier-coverage warning
(the count reported at line 66). -/
structure ChartSet where
  coverageWarning : Option ℕ
  processedVsDisputed : List (String × ℚ × ℚ)
  monthlyDisputes : List (String × ℚ × ℚ)
  pendingReconciliation : List (String × ℚ × ℚ)
  reconciliationTrend : List ((String × String) × ℕ)
  disputeTypeTotals : List ((String × String) × ℚ)
  disputeStatusTotals : List ((String × String) × ℚ)
  settlementStatusCounts : List ((String × String) × ℕ)
  settledVsOutstanding : List ((String × String) × ℚ)
deriving Repr, DecidableEq

/-- Result of one filter-change event: either the no-data state of
line 63, or the computed charts. -/
inductive PipelineOutput where
  | noData : PipelineOutput
  | charts : ChartSet → PipelineOutput
deriving Repr, DecidableEq

/-- Compute every aggregation of the four tabs from the filtered rows. -/
def buildCharts (f : List BillingRecord) (w : Option ℕ) : ChartSet :=
  { coverageWarning := w
    processedVsDisputed := processed_vs_disputed f
    monthlyDisputes := monthly_disputes f
    pendingReconciliation := pending_reconciliation_summary f
    reconciliationTrend := reconciliation_trend f
    disputeTypeTotals := dispute_type f
    disputeStatusTotals := dispute_status f
    settlementStatusCounts := settlement_status f
    settledVsOutstanding := settled_vs_outstanding f }

/-- The dispatch of lines 62-66: an empty filtered set short-circuits to
the no-data state; otherwise a coverage warning (with the distinct
carrier count) is attached when a specific month leaves fewer than 3
distinct carriers, and the charts are computed either way. -/
def runPipeline (rs : List BillingRecord) (carrierSel monthSel : String) :
    PipelineOutput :=
  let f := applyFilters rs carrierSel monthSel
  if f.isEmpty then PipelineOutput.noData
  else
    let n := (uniques (f.map (fun r => r.carrierName))).length
    let w := if monthSel ≠ "All" ∧ n < 3 then some n else none
    PipelineOutput.charts (buildCharts f w)

/-- Concrete deterministic stream used to instantiate the abstract
generator at witnesses: uniform draws return the midpoint, the dispute
draw fires on every fifth state, and choices cycle through the list. -/
def testGen : RandRec ℕ :=
  { uniform := fun a b s => (a + (b - a) / 2, s + 1)
    rand := fun s => (if s % 5 = 0 then (0 : ℚ) else 1 / 2, s + 1)
    choice := fun l s => (l.getD (s % l.length) "", s + 1) }

/-! ### Helper lemmas -/

theorem mem_uniques_iff {α : Type} [DecidableEq α] (l : List α) (a : α) :
    a ∈ uniques l ↔ a ∈ l := by
  induction l using uniques.induct with
  | case1 => simp [uniques]
  | case2 x xs ih =>
    rw [uniques]
    simp only [List.mem_cons, ih, List.mem_filter, decide_eq_true_eq]
    by_cases h : a = x <;> simp [h]

theorem uniques_nodup {α : Type} [DecidableEq α] (l : List α) :
    (uniques l).Nodup := by
  induction l using uniques.induct with
  | case1 => simp [uniques]
  | case2 x xs ih =>
    rw [uniques]
    refine List.Nodup.cons ?_ ih
    intro hmem
    rw [mem_uniques_iff] at hmem
    have := (List.mem_filter.mp hmem).2
    simp at this

/-- The month/carrier identity of a record: the pair of key columns that
identifies its position in the generation grid. -/
def recordKey (r : BillingRecord) : String × String :=
  (r.invoiceMonth, r.carrierName)

theorem genCarriers_map_key {σ : Type} (g : RandRec σ) (m : String) :
    ∀ (cs : List String) (s : σ),
      ((genCarriers g m cs s).1).map recordKey = cs.map (fun c => (m, c)) := by
  intro cs
  induction cs with
  | nil => intro s; rfl
  | cons c cs ih =>
    intro s
    simp only [genCarriers, List.map_cons, ih]
    rfl

theorem genMonths_map_key {σ : Type} (g : RandRec σ) :
    ∀ (ms : List String) (s : σ),
      ((genMonths g ms s).1).map recordKey
        = ms.flatMap (fun m => carriers.map (fun c => (m, c))) := by
  intro ms
  induction ms with
  | nil => intro s; rfl
  | cons m ms ih =>
    intro s
    simp only [genMonths, List.map_append, List.flatMap_cons, ih,
      genCarriers_map_key]

theorem generate_map_key {σ : Type} (g : RandRec σ) (s0 : σ) :
    (generate_sample_data g s0).map recordKey
      = months.flatMap (fun m => carriers.map (fun c => (m, c))) :=
  genMonths_map_key g months s0

theorem generate_length {σ : Type} (g : RandRec σ) (s0 : σ) :
    (generate_sample_data g s0).length = 120 := by
  have h := congrArg List.length (generate_map_key g s0)
  rw [List.length_map] at h
  rw [h]
  decide

/-! ### C1: the generation grid -/

/-- C1: for every fixed seed (every abstract random stream and initial
state), `generate_sample_data` returns exactly 120 records whose
(month, carrier) keys are precisely the month-major, carrier-minor
enumeration of the 12 months "2024-01".."2024-12" by the 10 carriers
"Carrier 1".."Carrier 10", with no duplicate pair, in generation
order. -/
theorem generate_returns_full_grid {σ : Type} (g : RandRec σ) (s0 : σ) :
    (generate_sample_data g s0).length = 120 ∧
    (generate_sample_data g s0).map recordKey
      = months.flatMap (fun m => carriers.map (fun c => (m, c))) ∧
    ((generate_sample_data g s0).map recordKey).Nodup ∧
    carriers = ["Carrier 1", "Carrier 2", "Carrier 3", "Carrier 4",
      "Carrier 5", "Carrier 6", "Carrier 7", "Carrier 8", "Carrier 9",
      "Carrier 10"] := by
  refine ⟨generate_length g s0, generate_map_key g s0, ?_, by decide⟩
  rw [generate_map_key g s0]
  decide

/-! ### C2: filter semantics -/

theorem applyFilters_eq_filter (rs : List BillingRecord) (c m : String) :
    applyFilters rs c m = rs.filter (fun r =>
      (decide (c = "All") || decide (r.carrierName = c)) &&
      (decide (m = "All") || decide (r.invoiceMonth = m))) := by
  by_cases hc : c = "All" <;> by_cases hm : m = "All" <;>
    simp only [applyFilters, hc, hm, if_true, if_false, if_pos, if_neg,
      not_false_iff, decide_eq_true_eq]
  · simp
  · simp
  · simp
  · rw [List.filter_filter]
    refine List.filter_congr ?_
    intro r _
    simp [Bool.and_comm]

/-- C2: `applyFilters` keeps exactly the records matched by the
conjunction of the two exact-equality predicates (each vacuous when its
selector is "All"), preserves the relative input order (the result is a
sublist of the input), and with both selectors "All" returns the input
unchanged — in particular the full 120-record generated set. -/
theorem applyFilters_and_semantics {σ : Type} (g : RandRec σ) (s0 : σ)
    (rs : List BillingRecord) (c m : String) :
    applyFilters rs c m = rs.filter (fun r =>
      (decide (c = "All") || decide (r.carrierName = c)) &&
      (decide (m = "All") || decide (r.invoiceMonth = m))) ∧
    (applyFilters rs c m).Sublist rs ∧
    applyFilters rs "All" "All" = rs ∧
    (applyFilters (generate_sample_data g s0) "All" "All").length = 120 := by
  refine ⟨applyFilters_eq_filter rs c m, ?_, ?_, ?_⟩
  · rw [applyFilters_eq_filter]
    exact List.filter_sublist rs
  · simp [applyFilters]
  · simp [applyFilters, generate_length]

/-! ### C3/C4: per-record invariants of the generator -/

theorem mem_genCarriers {σ : Type} (g : RandRec σ) (m : String) :
    ∀ (cs : List String) (s : σ) (r : BillingRecord),
      r ∈ (genCarriers g m cs s).1 → ∃ c s', r = (genRecord g c m s').1 := by
  intro cs
  induction cs with
  | nil => intro s r h; simp [genCarriers] at h
  | cons c cs ih =>
    intro s r h
    simp only [genCarriers, List.mem_cons] at h
    rcases h with h | h
    · exact ⟨c, s, h⟩
    · exact ih _ r h

theorem mem_genMonths {σ : Type} (g : RandRec σ) :
    ∀ (ms : List String) (s : σ) (r : BillingRecord),
      r ∈ (genMonths g ms s).1 → ∃ c m s', r = (genRecord g c m s').1 := by
  intro ms
  induction ms with
  | nil => intro s r h; simp [genMonths] at h
  | cons m ms ih =>
    intro s r h
    simp only [genMonths, List.mem_append] at h
    rcases h with h | h
    · obtain ⟨c, s', hc⟩ := mem_genCarriers g m carriers s r h
      exact ⟨c, m, s', hc⟩
    · exact ih _ r h

theorem genRecord_disputed_amount {σ : Type} (g : RandRec σ)
    (hu : ∀ (a b : ℚ) (s : σ), a < b →
      a ≤ (g.uniform a b s).1 ∧ (g.uniform a b s).1 < b)
    (c m : String) (s : σ) :
    ((genRecord g c m s).1.isDisputed = false →
      (genRecord g c m s).1.disputedAmountUSD = 0) ∧
    ((genRecord g c m s).1.isDisputed = true →
      0 ≤ (genRecord g c m s).1.disputedAmountUSD ∧
      (genRecord g c m s).1.disputedAmountUSD
        < (3 / 10) * (genRecord g c m s).1.invoiceAmountUSD) := by
  have hinv := hu 1000 5000 s (by norm_num)
  simp only [genRecord]
  by_cases hd : ((g.rand (g.uniform 1000 5000 s).2).1 < (1 : ℚ) / 5)
  · simp only [hd, decide_True, if_true]
    refine ⟨by simp, fun _ => ?_⟩
    have h2 := hu 0 ((g.uniform 1000 5000 s).1 * (3 / 10))
      (g.rand (g.uniform 1000 5000 s).2).2 (by nlinarith [hinv.1])
    constructor
    · exact h2.1
    · calc _ < (g.uniform 1000 5000 s).1 * (3 / 10) := h2.2
        _ = (3 / 10) * (g.uniform 1000 5000 s).1 := by ring
  · simp only [hd, decide_False, if_false]
    exact ⟨fun _ => rfl, by simp⟩

theorem genRecord_dispute_fields {σ : Type} (g : RandRec σ)
    (c m : String) (s : σ) :
    ((genRecord g c m s).1.disputeType = none ↔
      (genRecord g c m s).1.isDisputed = false) ∧
    ((genRecord g c m s).1.isDisputed = false →
      (genRecord g c m s).1.settlementStatus = "Settled") := by
  simp only [genRecord]
  by_cases hd : ((g.rand (g.uniform 1000 5000 s).2).1 < (1 : ℚ) / 5)
  · simp only [hd, decide_True, if_true]
    simp
  · simp only [hd, decide_False, if_false]
    simp

/-- C3: for every stream whose `uniform` draw lies in the half-open
requested interval, every generated record has `disputedAmountUSD = 0`
when undisputed and `0 ≤ disputedAmountUSD < 0.3 × invoiceAmountUSD`
when disputed. -/
theorem disputed_amount_bounds {σ : Type} (g : RandRec σ) (s0 : σ)
    (hu : ∀ (a b : ℚ) (s : σ), a < b →
      a ≤ (g.uniform a b s).1 ∧ (g.uniform a b s).1 < b)
    (r : BillingRecord) (hr : r ∈ generate_sample_data g s0) :
    (r.isDisputed = false → r.disputedAmountUSD = 0) ∧
    (r.isDisputed = true →
      0 ≤ r.disputedAmountUSD ∧
      r.disputedAmountUSD < (3 / 10) * r.invoiceAmountUSD) := by
  obtain ⟨c, m, s', hrec⟩ := mem_genMonths g months s0 r hr
  rw [hrec]
  exact genRecord_disputed_amount g hu c m s'

/-- C4: in every generated record the dispute type is null exactly when
the record is undisputed, and undisputed records always carry
settlement status "Settled". -/
theorem dispute_fields_iff {σ : Type} (g : RandRec σ) (s0 : σ)
    (r : BillingRecord) (hr : r ∈ generate_sample_data g s0) :
    (r.disputeType = none ↔ r.isDisputed = false) ∧
    (r.isDisputed = false → r.settlementStatus = "Settled") := by
  obtain ⟨c, m, s', hrec⟩ := mem_genMonths g months s0 r hr
  rw [hrec]
  exact genRecord_dispute_fields g c m s'

/-- The first record generated from state 4 of the concrete test
stream: a disputed record (month 2024-01, Carrier 1). -/
def sampleDisputed : BillingRecord :=
  { carrierName := "Carrier 1"
    invoiceAmountUSD := 3000
    disputedAmountUSD := 450
    isDisputed := true
    reconciliationStatus := "Completed"
    disputeType := some "Rate Dispute"
    settlementStatus := "Unsettled"
    invoiceMonth := "2024-01" }

/-- The first record generated from state 0 of the concrete test
stream: an undisputed record (month 2024-01, Carrier 1). -/
def sampleUndisputed : BillingRecord :=
  { carrierName := "Carrier 1"
    invoiceAmountUSD := 3000
    disputedAmountUSD := 0
    isDisputed := false
    reconciliationStatus := "In Progress"
    disputeType := none
    settlementStatus := "Settled"
    invoiceMonth := "2024-01" }

theorem head_mem_generate {σ : Type} (g : RandRec σ) (s0 : σ) :
    (genRecord g "Carrier 1" "2024-01" s0).1 ∈ generate_sample_data g s0 :=
  List.mem_cons_self _ _

theorem testGen_uniform_in_range : ∀ (a b : ℚ) (s : ℕ), a < b →
    a ≤ (testGen.uniform a b s).1 ∧ (testGen.uniform a b s).1 < b := by
  intro a b s h
  constructor <;> (simp only [testGen]; linarith)

theorem sampleDisputed_is_generated :
    sampleDisputed = (genRecord testGen "Carrier 1" "2024-01" 4).1 := by
  with_unfolding_all rfl

theorem sampleUndisputed_is_generated :
    sampleUndisputed = (genRecord testGen "Carrier 1" "2024-01" 0).1 := by
  with_unfolding_all rfl

theorem disputed_amount_bounds_witness :
    sampleDisputed.isDisputed = true ∧
    0 ≤ sampleDisputed.disputedAmountUSD ∧
    sampleDisputed.disputedAmountUSD
      < (3 / 10) * sampleDisputed.invoiceAmountUSD :=
  ⟨rfl, (disputed_amount_bounds testGen 4 testGen_uniform_in_range
    sampleDisputed
    (by rw [sampleDisputed_is_generated]; exact head_mem_generate testGen 4)).2
    rfl⟩

theorem dispute_fields_iff_witness :
    (sampleUndisputed.disputeType = none ↔
      sampleUndisputed.isDisputed = false) ∧
    sampleUndisputed.settlementStatus = "Settled" := by
  have h := dispute_fields_iff testGen 0 sampleUndisputed
    (by rw [sampleUndisputed_is_generated]; exact head_mem_generate testGen 0)
  exact ⟨h.1, h.2 rfl⟩

/-! ### C8: conservation of totals under grouping -/

theorem sum_map_filter_split {α : Type} (p : α → Bool) (f : α → ℚ)
    (l : List α) :
    ((l.filter p).map f).sum
      + ((l.filter (fun a => !(p a))).map f).sum = (l.map f).sum := by
  induction l with
  | nil => simp
  | cons a l ih =>
    cases h : p a
    · simp [List.filter_cons, h]
      linarith [ih]
    · simp [List.filter_cons, h]
      linarith [ih]

theorem sum_map_keys {α κ : Type} [DecidableEq κ] (key : α → κ)
    (f : α → ℚ) :
    ∀ (ks : List κ) (l : List α), ks.Nodup → (∀ a ∈ l, key a ∈ ks) →
      (ks.map (fun k =>
        ((l.filter (fun a => decide (key a = k))).map f).sum)).sum
        = (l.map f).sum := by
  intro ks
  induction ks with
  | nil =>
    intro l _ hcov
    have hl : l = [] :=
      List.eq_nil_iff_forall_not_mem.mpr (fun a ha => by simpa using hcov a ha)
    subst hl
    simp
  | cons k ks ih =>
    intro l hnd hcov
    have hk : k ∉ ks := (List.nodup_cons.mp hnd).1
    have hnd' : ks.Nodup := (List.nodup_cons.mp hnd).2
    have hcov' : ∀ a ∈ l.filter (fun a => !(decide (key a = k))),
        key a ∈ ks := by
      intro a ha
      have h1 := List.mem_filter.mp ha
      have h2 : ¬(key a = k) := by simpa using h1.2
      rcases List.mem_cons.mp (hcov a h1.1) with h | h
      · exact absurd h h2
      · exact h
    have hswap : ∀ k' ∈ ks,
        l.filter (fun a => decide (key a = k'))
          = (l.filter (fun a => !(decide (key a = k)))).filter
              (fun a => decide (key a = k')) := by
      intro k' hk'
      rw [List.filter_filter]
      refine List.filter_congr ?_
      intro a _
      by_cases h : key a = k'
      · have hne : ¬(k' = k) := fun hh => hk (hh ▸ hk')
        simp [h, hne]
      · simp [h]
    have hmapcongr :
        ks.map (fun k' =>
          ((l.filter (fun a => decide (key a = k'))).map f).sum)
        = ks.map (fun k' =>
          (((l.filter (fun a => !(decide (key a = k)))).filter
              (fun a => decide (key a = k'))).map f).sum) := by
      refine List.map_congr_left ?_
      intro k' hk'
      rw [hswap k' hk']
    simp only [List.map_cons, List.sum_cons, hmapcongr,
      ih (l.filter (fun a => !(decide (key a = k)))) hnd' hcov']
    exact sum_map_filter_split (fun a => decide (key a = k)) f l

/-- C8: for every filter selection, summing the invoice-amount column
of the carrier-totals aggregation over all its rows recovers the total
invoiceAmountUSD of the filtered set. -/
theorem carrier_totals_conserve_total (rs : List BillingRecord)
    (c m : String) :
    ((processed_vs_disputed (applyFilters rs c m)).map
        (fun p => p.2.1)).sum
      = ((applyFilters rs c m).map (fun r => r.invoiceAmountUSD)).sum := by
  have h1 : (processed_vs_disputed (applyFilters rs c m)).map
        (fun p => p.2.1)
      = (uniques ((applyFilters rs c m).map (fun r => r.carrierName))).map
          (fun k => (((applyFilters rs c m).filter
              (fun r => decide (r.carrierName = k))).map
                (fun r => r.invoiceAmountUSD)).sum) := by
    simp only [processed_vs_disputed, groupSum2By, List.map_map]
    rfl
  rw [h1]
  exact sum_map_keys (fun r => r.carrierName) (fun r => r.invoiceAmountUSD)
    (uniques ((applyFilters rs c m).map (fun r => r.carrierName)))
    (applyFilters rs c m) (uniques_nodup _)
    (fun a ha => (mem_uniques_iff _ _).mpr
      (List.mem_map_of_mem (fun r => r.carrierName) ha))

/-! ### C5/C6/C7: pipeline dispatch, empty sets and warnings -/

theorem uniques_nil {α : Type} [DecidableEq α] :
    uniques ([] : List α) = [] := by
  rw [uniques]

theorem groupSumBy_nil {κ : Type} [DecidableEq κ] (key : BillingRecord → κ)
    (val : BillingRecord → ℚ) : groupSumBy key val [] = [] := by
  simp [groupSumBy, uniques_nil]

theorem groupSum2By_nil {κ : Type} [DecidableEq κ] (key : BillingRecord → κ)
    (v w : BillingRecord → ℚ) : groupSum2By key v w [] = [] := by
  simp [groupSum2By, uniques_nil]

theorem groupCountBy_nil {κ : Type} [DecidableEq κ] (key : BillingRecord → κ) :
    groupCountBy key [] = [] := by
  simp [groupCountBy, uniques_nil]

/-- C5: an empty filtered set short-circuits the pipeline to the
no-data state, and each of the eight aggregations maps an empty input
to an empty output (they are total functions and cannot raise). -/
theorem empty_filter_short_circuits (rs : List BillingRecord)
    (c m : String) (h : applyFilters rs c m = []) :
    runPipeline rs c m = PipelineOutput.noData ∧
    processed_vs_disputed [] = [] ∧ monthly_disputes [] = [] ∧
    pending_reconciliation_summary [] = [] ∧
    reconciliation_trend [] = [] ∧ dispute_type [] = [] ∧
    dispute_status [] = [] ∧ settlement_status [] = [] ∧
    settled_vs_outstanding [] = [] := by
  refine ⟨by simp [runPipeline, h], groupSum2By_nil _ _ _,
    groupSum2By_nil _ _ _, ?_, groupCountBy_nil _, ?_,
    groupSumBy_nil _ _, groupCountBy_nil _, groupSumBy_nil _ _⟩
  · simp [pending_reconciliation_summary, groupSum2By_nil]
  · simp [dispute_type, groupSumBy_nil]

theorem generate_carrier_mem {σ : Type} (g : RandRec σ) (s0 : σ)
    (r : BillingRecord) (hr : r ∈ generate_sample_data g s0) :
    r.carrierName ∈ carriers := by
  have hpair : recordKey r
      ∈ months.flatMap (fun m => carriers.map (fun c => (m, c))) := by
    rw [← generate_map_key g s0]
    exact List.mem_map_of_mem recordKey hr
  obtain ⟨m, _, hp⟩ := List.mem_flatMap.mp hpair
  obtain ⟨c, hc, hcp⟩ := List.mem_map.mp hp
  have : c = r.carrierName := congrArg Prod.snd hcp
  exact this ▸ hc

theorem applyFilters_carrier_none (rs : List BillingRecord)
    (c m : String) (hc : c ≠ "All")
    (hnone : ∀ r ∈ rs, r.carrierName ≠ c) :
    applyFilters rs c m = [] := by
  have h1 : rs.filter (fun r => decide (r.carrierName = c)) = [] :=
    List.filter_eq_nil_iff.mpr (fun a ha => by simpa using hnone a ha)
  by_cases hm : m = "All" <;>
    simp [applyFilters, if_neg hc, h1, hm]

theorem no_carrier_99 :
    ∀ r ∈ generate_sample_data testGen 0, r.carrierName ≠ "Carrier 99" := by
  intro r hr hname
  have h := generate_carrier_mem testGen 0 r hr
  rw [hname] at h
  revert h
  decide

theorem empty_filter_short_circuits_witness :
    runPipeline (generate_sample_data testGen 0) "Carrier 99" "2024-05"
      = PipelineOutput.noData ∧
    processed_vs_disputed [] = [] ∧ monthly_disputes [] = [] ∧
    pending_reconciliation_summary [] = [] ∧
    reconciliation_trend [] = [] ∧ dispute_type [] = [] ∧
    dispute_status [] = [] ∧ settlement_status [] = [] ∧
    settled_vs_outstanding [] = [] :=
  empty_filter_short_circuits (generate_sample_data testGen 0)
    "Carrier 99" "2024-05"
    (applyFilters_carrier_none _ _ _ (by decide) no_carrier_99)

/-- C6 counterexample: selecting the out-of-dataset carrier
"Carrier 99" silently yields the empty filtered set and the ordinary
no-data state; the filter stage has no failing outcome at all, so it
does not fail fast with an InvalidSelector error as claimed. -/
theorem invalid_selector_counterexample :
    applyFilters (generate_sample_data testGen 0) "Carrier 99" "All" = [] ∧
    runPipeline (generate_sample_data testGen 0) "Carrier 99" "All"
      = PipelineOutput.noData := by
  have h1 : applyFilters (generate_sample_data testGen 0)
      "Carrier 99" "All" = [] :=
    applyFilters_carrier_none _ _ _ (by decide) no_carrier_99
  exact ⟨h1, by simp [runPipeline, h1]⟩

theorem applyFilters_selector_none (rs : List BillingRecord)
    (c m : String)
    (h : (c ≠ "All" ∧ ∀ r ∈ rs, r.carrierName ≠ c)
       ∨ (m ≠ "All" ∧ ∀ r ∈ rs, r.invoiceMonth ≠ m)) :
    applyFilters rs c m = [] := by
  rw [applyFilters_eq_filter]
  apply List.filter_eq_nil_iff.mpr
  intro r hr
  rcases h with ⟨hc, hnone⟩ | ⟨hm, hnone⟩
  · simp [hc, hnone r hr]
  · simp [hm, hnone r hr]

theorem generate_month_mem {σ : Type} (g : RandRec σ) (s0 : σ)
    (r : BillingRecord) (hr : r ∈ generate_sample_data g s0) :
    r.invoiceMonth ∈ months := by
  have hpair : recordKey r
      ∈ months.flatMap (fun m => carriers.map (fun c => (m, c))) := by
    rw [← generate_map_key g s0]
    exact List.mem_map_of_mem recordKey hr
  obtain ⟨m, hm, hp⟩ := List.mem_flatMap.mp hpair
  obtain ⟨c, _, hcp⟩ := List.mem_map.mp hp
  have : m = r.invoiceMonth := congrArg Prod.fst hcp
  exact this ▸ hm

theorem no_month_13 :
    ∀ r ∈ generate_sample_data testGen 0, r.invoiceMonth ≠ "2024-13" := by
  intro r hr hname
  have h := generate_month_mem testGen 0 r hr
  rw [hname] at h
  revert h
  decide

/-- C6 (amended): a selector value — of either field, carrier or month
— that is absent from the distinct values of its field in the base
dataset makes the filter stage silently return the empty set, and the
pipeline reports the no-data state; no error is raised and the base
data is untouched (the stage is a pure function of its input). -/
theorem invalid_selector_silently_empty (rs : List BillingRecord)
    (c m : String)
    (h : (c ≠ "All" ∧ ∀ r ∈ rs, r.carrierName ≠ c)
       ∨ (m ≠ "All" ∧ ∀ r ∈ rs, r.invoiceMonth ≠ m)) :
    applyFilters rs c m = [] ∧
    runPipeline rs c m = PipelineOutput.noData := by
  have h1 := applyFilters_selector_none rs c m h
  exact ⟨h1, by simp [runPipeline, h1]⟩

theorem invalid_selector_silently_empty_witness :
    applyFilters (generate_sample_data testGen 0) "All" "2024-13"
      = [] ∧
    runPipeline (generate_sample_data testGen 0) "All" "2024-13"
      = PipelineOutput.noData :=
  invalid_selector_silently_empty (generate_sample_data testGen 0)
    "All" "2024-13" (Or.inr ⟨by decide, no_month_13⟩)

theorem mem_applyFilters_carrier (rs : List BillingRecord) (c m : String)
    (hc : c ≠ "All") (r : BillingRecord)
    (hr : r ∈ applyFilters rs c m) : r.carrierName = c := by
  rw [applyFilters_eq_filter] at hr
  have h2 := (List.mem_filter.mp hr).2
  simp [hc] at h2
  exact h2.1

theorem uniques_all_eq {α : Type} [DecidableEq α] (c : α) (l : List α)
    (h : ∀ a ∈ l, a = c) : (uniques l).length ≤ 1 := by
  cases l with
  | nil => simp [uniques_nil]
  | cons x xs =>
    rw [uniques]
    have hfil : xs.filter (fun y => decide (y ≠ x)) = [] := by
      apply List.filter_eq_nil_iff.mpr
      intro a ha
      have hax : a = c := h a (List.mem_cons_of_mem _ ha)
      have hx : x = c := h x (List.mem_cons_self _ _)
      simp [hax, hx]
    rw [hfil, uniques_nil]
    simp

theorem exists_mem_applyFilters {σ : Type} (g : RandRec σ) (s0 : σ)
    (c m : String) (hc : c ∈ carriers) (hm : m ∈ months) :
    applyFilters (generate_sample_data g s0) c m ≠ [] := by
  have hpair : (m, c)
      ∈ months.flatMap (fun mo => carriers.map (fun co => (mo, co))) :=
    List.mem_flatMap.mpr ⟨m, hm, List.mem_map_of_mem _ hc⟩
  rw [← generate_map_key g s0] at hpair
  obtain ⟨r, hr, hkey⟩ := List.mem_map.mp hpair
  have hmon : r.invoiceMonth = m := congrArg Prod.fst hkey
  have hcar : r.carrierName = c := congrArg Prod.snd hkey
  apply List.ne_nil_of_mem (a := r)
  rw [applyFilters_eq_filter]
  exact List.mem_filter.mpr ⟨hr, by simp [hmon, hcar]⟩

/-- C7: when a specific month is selected, the filtered set is
non-empty, and fewer than 3 distinct carriers remain, the pipeline
attaches the coverage warning carrying the distinct-carrier count and
still computes every aggregation on the filtered set. -/
theorem low_coverage_warns_and_computes (rs : List BillingRecord)
    (c m : String) (hm : m ≠ "All")
    (hne : applyFilters rs c m ≠ [])
    (hlow : (uniques ((applyFilters rs c m).map
        (fun r => r.carrierName))).length < 3) :
    runPipeline rs c m = PipelineOutput.charts
      (buildCharts (applyFilters rs c m)
        (some (uniques ((applyFilters rs c m).map
          (fun r => r.carrierName))).length)) := by
  simp only [runPipeline]
  rw [if_neg (by simpa [List.isEmpty_iff] using hne)]
  rw [if_pos ⟨hm, hlow⟩]

theorem low_coverage_warns_witness :
    runPipeline (generate_sample_data testGen 0) "Carrier 1" "2024-01"
      = PipelineOutput.charts
        (buildCharts
          (applyFilters (generate_sample_data testGen 0)
            "Carrier 1" "2024-01")
          (some (uniques ((applyFilters (generate_sample_data testGen 0)
            "Carrier 1" "2024-01").map
              (fun r => r.carrierName))).length)) :=
  low_coverage_warns_and_computes (generate_sample_data testGen 0)
    "Carrier 1" "2024-01" (by decide)
    (exists_mem_applyFilters testGen 0 "Carrier 1" "2024-01"
      (by decide) (by decide))
    (by
      have h1 : ∀ a ∈ (applyFilters (generate_sample_data testGen 0)
          "Carrier 1" "2024-01").map (fun r => r.carrierName),
          a = "Carrier 1" := by
        intro a ha
        obtain ⟨r, hr, hra⟩ := List.mem_map.mp ha
        rw [← hra]
        exact mem_applyFilters_carrier _ _ _ (by decide) r hr
      have h2 := uniques_all_eq "Carrier 1" _ h1
      omega)

/-! ### C9: settlement status counts -/

/-- A handcrafted disputed record on a second carrier sharing the
settlement status "Unsettled" with `sampleDisputed`. -/
def sampleDisputedB : BillingRecord :=
  { carrierName := "Carrier 2"
    invoiceAmountUSD := 2000
    disputedAmountUSD := 100
    isDisputed := true
    reconciliationStatus := "Pending"
    disputeType := some "Volume Dispute"
    settlementStatus := "Unsettled"
    invoiceMonth := "2024-01" }

/-- C9 counterexample: on this two-record filtered set the aggregation
of line 168 (group by carrier AND settlement status) yields two rows,
while only one distinct settlementStatus value is present — so it does
not produce one row per distinct settlementStatus value. -/
theorem settlement_counts_counterexample :
    (settlement_status (applyFilters [sampleDisputed, sampleDisputedB]
      "All" "All")).length = 2 ∧
    (uniques ((applyFilters [sampleDisputed, sampleDisputedB]
      "All" "All").map (fun r => r.settlementStatus))).length = 1 := by
  have hAll : applyFilters [sampleDisputed, sampleDisputedB] "All" "All"
      = [sampleDisputed, sampleDisputedB] := by
    simp [applyFilters]
  rw [hAll]
  constructor
  · simp [settlement_status, groupCountBy, uniques,
      sampleDisputed, sampleDisputedB]
  · simp [uniques, sampleDisputed, sampleDisputedB]

/-- C9 (amended): the settlement-status aggregation groups by the pair
(carrierName, settlementStatus): its key column is exactly the list of
distinct such pairs of the filtered data (no duplicate row), each key
pair of a row occurs in the data, and the count of each row is the number of
filtered records carrying that exact pair. -/
theorem settlement_counts_by_pair (rs : List BillingRecord)
    (p : (String × String) × ℕ) (hp : p ∈ settlement_status rs) :
    ((settlement_status rs).map Prod.fst
      = uniques (rs.map (fun r => (r.carrierName, r.settlementStatus)))) ∧
    ((settlement_status rs).map Prod.fst).Nodup ∧
    p.1 ∈ rs.map (fun r => (r.carrierName, r.settlementStatus)) ∧
    p.2 = (rs.filter (fun r =>
      decide ((r.carrierName, r.settlementStatus) = p.1))).length := by
  have hkeys : (settlement_status rs).map Prod.fst
      = uniques (rs.map (fun r => (r.carrierName, r.settlementStatus))) := by
    simp only [settlement_status, groupCountBy, List.map_map]
    have hid : (Prod.fst ∘ fun k : String × String =>
        (k, (rs.filter (fun r =>
          decide ((r.carrierName, r.settlementStatus) = k))).length))
        = id := rfl
    rw [hid, List.map_id]
  refine ⟨hkeys, hkeys ▸ uniques_nodup _, ?_, ?_⟩
  · have h1 : p.1 ∈ (settlement_status rs).map Prod.fst :=
      List.mem_map_of_mem Prod.fst hp
    rw [hkeys] at h1
    exact (mem_uniques_iff _ _).mp h1
  · simp only [settlement_status, groupCountBy] at hp
    obtain ⟨k, hk, hkp⟩ := List.mem_map.mp hp
    rw [← hkp]

theorem settlement_counts_by_pair_witness :
    ((settlement_status [sampleDisputed, sampleDisputedB]).map Prod.fst
      = uniques ([sampleDisputed, sampleDisputedB].map
          (fun r => (r.carrierName, r.settlementStatus)))) ∧
    ((settlement_status [sampleDisputed, sampleDisputedB]).map
      Prod.fst).Nodup ∧
    (("Carrier 1", "Unsettled"), 1).1
      ∈ [sampleDisputed, sampleDisputedB].map
          (fun r => (r.carrierName, r.settlementStatus)) ∧
    (("Carrier 1", "Unsettled"), 1).2
      = ([sampleDisputed, sampleDisputedB].filter (fun r =>
          decide ((r.carrierName, r.settlementStatus)
            = (("Carrier 1", "Unsettled"), 1).1))).length :=
  settlement_counts_by_pair [sampleDisputed, sampleDisputedB]
    (("Carrier 1", "Unsettled"), 1)
    (by simp [settlement_status, groupCountBy, uniques,
      sampleDisputed, sampleDisputedB])

/-! ### C10: all-undisputed input empties the dispute-type table -/

/-- C10: a non-empty record set in which every record has null
disputeType produces an empty dispute-type-by-carrier table, because
every row is dropped before grouping. -/
theorem dispute_type_empty_when_no_disputes (rs : List BillingRecord)
    (_hne : rs ≠ []) (hnone : ∀ r ∈ rs, r.disputeType = none) :
    dispute_type rs = [] := by
  have h : rs.filter (fun r => decide (r.disputeType ≠ none)) = [] :=
    List.filter_eq_nil_iff.mpr (fun a ha => by simp [hnone a ha])
  unfold dispute_type
  rw [h]
  exact groupSumBy_nil _ _

theorem dispute_type_empty_witness :
    [sampleUndisputed] ≠ ([] : List BillingRecord) ∧
    dispute_type [sampleUndisputed] = [] :=
  ⟨by simp, dispute_type_empty_when_no_disputes [sampleUndisputed]
    (by simp)
    (fun r hr => by
      rw [List.mem_singleton.mp hr]
      rfl)⟩
